import Mathlib

/-!
Shallow embedding of selected components of the Google Cloud SDK repository
(container API adapter, kubeconfig model, cluster upgrade command, cloud
functions deploy utilities, SQL instance builder), together with theorems
settling the specification claims about them.

All definitions are translated from the Python source.  Python 2 semantics
apply: `/` on non-negative integers is floor division, `x or y` yields `y`
when `x` is falsy (`None`, `0`, empty string/list/dict), and message fields
default to `None` (modelled as `Option`).
-/

namespace GCloud

/-- Python truthiness of an optional string (`None` and `""` are falsy). -/
def truthyStr : Option String → Bool
  | none => false
  | some s => !s.isEmpty

/-- Python truthiness of an optional boolean (`None` and `False` are falsy). -/
def truthyBool : Option Bool → Bool
  | none => false
  | some b => b

/-- Python truthiness of a list (empty list is falsy). -/
def truthyList {α : Type} : List α → Bool
  | [] => false
  | _ :: _ => true

/-- Whether an `Except` computation succeeded (a raised exception is `false`). -/
def exceptOk {ε α : Type} : Except ε α → Bool
  | .ok _ => true
  | .error _ => false

/-! ## Container API adapter: node-pool sharding (`CreateClusterCommon`) -/

/-- `MAX_NODES_PER_POOL = 1000` from `api_lib/container/api_adapter.py`. -/
def MAX_NODES_PER_POOL : Nat := 1000

/-- The fields of a generated `NodePool` message that the sharding code sets
per pool (the shared `NodeConfig` etc. is identical across pools and omitted). -/
structure NodePool where
  name : String
  initialNodeCount : Nat
  deriving Repr, DecidableEq

/-- `max_nodes_per_pool = options.max_nodes_per_pool or MAX_NODES_PER_POOL`:
Python `or` falls back to the constant when the option is `None` or `0`. -/
def effectiveMaxNodesPerPool : Option Nat → Nat
  | none => MAX_NODES_PER_POOL
  | some m => if m = 0 then MAX_NODES_PER_POOL else m

/-- Pool-name generation from `CreateClusterCommon`:
`pools = (num_nodes + max_nodes_per_pool - 1) / max_nodes_per_pool` (Python 2
floor division, i.e. ceiling division here), a single pool is named
`default-pool`, several pools `default-pool-0`, `default-pool-1`, ... . -/
def poolNames (num_nodes max_nodes_per_pool : Nat) : List String :=
  let pools := (num_nodes + max_nodes_per_pool - 1) / max_nodes_per_pool
  if pools = 1 then ["default-pool"]
  else (List.range pools).map (fun i => "default-pool-" ++ toString i)

/-- The node-distribution loop of `CreateClusterCommon`:
`nodes = per_pool if (to_add > per_pool) else to_add`, appending a pool per
name and decrementing `to_add` by the assigned count. -/
def buildPools (per_pool : Nat) : List String → Nat → List NodePool
  | [], _ => []
  | name :: rest, to_add =>
    let nodes := if to_add > per_pool then per_pool else to_add
    { name := name, initialNodeCount := nodes } :: buildPools per_pool rest (to_add - nodes)

/-- The node-pool sharding of `CreateClusterCommon`: computes the pool names,
then `per_pool = (num_nodes + len(pool_names) - 1) / len(pool_names)` and
distributes `num_nodes` greedily over the pools. -/
def createNodePools (num_nodes max_nodes_per_pool : Nat) : List NodePool :=
  let pool_names := poolNames num_nodes max_nodes_per_pool
  let per_pool := (num_nodes + pool_names.length - 1) / pool_names.length
  buildPools per_pool pool_names num_nodes

/-- Sum of the node counts assigned by the distribution loop. -/
def poolSum (ps : List NodePool) : Nat :=
  (ps.map (fun p => p.initialNodeCount)).sum

/-! ## Kubeconfig model (`api_lib/container/kubeconfig.py`) -/

/-- Environment consulted by `_AuthProvider`: the
`container/use_application_default_credentials` property, the host platform,
and `config.Paths().sdk_bin_path`. -/
structure AuthProviderEnv where
  use_app_default_credentials : Bool
  isWindows : Bool
  sdk_bin_path : Option String
  deriving Repr, DecidableEq

/-- The `config` dict of a gcp auth-provider entry. -/
structure AuthProviderCfg where
  cmd_path : String
  cmd_args : String
  token_key : String
  expiry_key : String
  deriving Repr, DecidableEq

/-- An auth-provider entry `{'name': ..., 'config': ...}` (the `config` key is
only set on the gcp credential-helper path). -/
structure AuthProviderEntry where
  name : String
  config : Option AuthProviderCfg
  deriving Repr, DecidableEq

/-- First line of the `SDK_BIN_PATH_NOT_FOUND` message (kubeconfig.py). -/
def SDK_BIN_PATH_NOT_FOUND : String :=
  "Path to sdk installation not found. Please switch to application default credentials"

/-- `_AuthProvider(name='gcp')` from kubeconfig.py: for the gcp provider
without application-default credentials, resolves the CLI binary and embeds
the credential-helper invocation; raises if the sdk path is unresolvable. -/
def _AuthProvider (env : AuthProviderEnv) (name : String) : Except String AuthProviderEntry :=
  if name = "gcp" && !env.use_app_default_credentials then
    let bin_name := if env.isWindows then "gcloud.cmd" else "gcloud"
    match env.sdk_bin_path with
    | none => .error SDK_BIN_PATH_NOT_FOUND
    | some p =>
      .ok { name := name,
            config := some
              { cmd_path := p ++ "/" ++ bin_name,
                cmd_args := "config config-helper --format=json",
                token_key := "\x7b.credential.access_token\x7d",
                expiry_key := "\x7b.credential.token_expiry\x7d" } }
  else .ok { name := name, config := none }

/-- A kubeconfig user body.  Dict keys are modelled as `Option` fields; the
`username`/`password` keys can be present holding the Python value `None`
(the source writes them unconditionally in the basic-auth branch), hence
`Option (Option String)`. -/
structure UserBody where
  auth_provider : Option AuthProviderEntry := none
  token : Option String := none
  username : Option (Option String) := none
  password : Option (Option String) := none
  client_certificate : Option String := none
  client_certificate_data : Option String := none
  client_key : Option String := none
  client_key_data : Option String := none
  deriving Repr, DecidableEq

/-- A `{'name': ..., 'user': ...}` kubeconfig user entry. -/
structure UserEntry where
  name : String
  user : UserBody
  deriving Repr, DecidableEq

/-- The guard of `User`: `(not auth_provider and not token and not cert_path
and not cert_data and (not username or not password))`. -/
def noAuthInfo (token username password auth_provider cert_path cert_data : Option String) :
    Bool :=
  !truthyStr auth_provider && !truthyStr token && !truthyStr cert_path &&
    !truthyStr cert_data && (!truthyStr username || !truthyStr password)

/-- The auth part of the `User` body: `auth-provider`, else `token`, else
the `username`/`password` pair (written even when `None`). -/
def userBody (env : AuthProviderEnv)
    (token username password auth_provider : Option String) : Except String UserBody :=
  if truthyStr auth_provider then
    match _AuthProvider env (auth_provider.getD "") with
    | .error e => .error e
    | .ok ap => .ok { auth_provider := some ap }
  else if truthyStr token then .ok { token := token }
  else .ok { username := some username, password := some password }

/-- The client-certificate part of the `User` body. -/
def applyCert (user : UserBody) (cert_path cert_data : Option String) : UserBody :=
  if truthyStr cert_path then { user with client_certificate := cert_path }
  else if truthyStr cert_data then { user with client_certificate_data := cert_data }
  else user

/-- The client-key part of the `User` body. -/
def applyKey (user : UserBody) (key_path key_data : Option String) : UserBody :=
  if truthyStr key_path then { user with client_key := key_path }
  else if truthyStr key_data then { user with client_key_data := key_data }
  else user

/-- `User(name, token, username, password, auth_provider, cert_path,
cert_data, key_path, key_data)` from kubeconfig.py, with the ambient
environment passed explicitly for `_AuthProvider`. -/
def User (env : AuthProviderEnv) (name : String)
    (token username password auth_provider cert_path cert_data key_path key_data :
      Option String) : Except String UserEntry :=
  if noAuthInfo token username password auth_provider cert_path cert_data then
    .error "either auth_provider, token or username & password must be provided"
  else
    match userBody env token username password auth_provider with
    | .error e => .error e
    | .ok user =>
      if truthyStr cert_path && truthyStr cert_data then
        .error "cannot specify both cert_path and cert_data"
      else
        let user := applyCert user cert_path cert_data
        if truthyStr key_path && truthyStr key_data then
          .error "cannot specify both key_path and key_data"
        else
          .ok { name := name, user := applyKey user key_path key_data }

/-- The in-memory `Kubeconfig` state: three name-keyed collections and the
`current-context` scalar.  Entry payloads are type parameters (the source
stores raw YAML dicts). -/
structure Kubeconfig (C U X : Type) where
  clusters : List (String × C)
  users : List (String × U)
  contexts : List (String × X)
  currentContext : String
  deriving Repr, DecidableEq

/-- `Kubeconfig.Clear(key)`: pops `key` from contexts, clusters and users, and
resets `current-context` to `''` when it equals `key`. -/
def Kubeconfig.Clear {C U X : Type} (cfg : Kubeconfig C U X) (key : String) :
    Kubeconfig C U X :=
  { clusters := cfg.clusters.filter (fun e => e.1 != key),
    users := cfg.users.filter (fun e => e.1 != key),
    contexts := cfg.contexts.filter (fun e => e.1 != key),
    currentContext := if cfg.currentContext = key then "" else cfg.currentContext }

lemma buildPools_length (per_pool : Nat) (names : List String) (t : Nat) :
    (buildPools per_pool names t).length = names.length := by
  induction names generalizing t with
  | nil => rfl
  | cons n rest ih => simp [buildPools, ih]

lemma buildPools_names (per_pool : Nat) (names : List String) (t : Nat) :
    (buildPools per_pool names t).map (fun p => p.name) = names := by
  induction names generalizing t with
  | nil => rfl
  | cons n rest ih => simp [buildPools, ih]

lemma buildPools_sum (per_pool : Nat) (names : List String) (t : Nat) :
    poolSum (buildPools per_pool names t) = min (per_pool * names.length) t := by
  induction names generalizing t with
  | nil => simp [buildPools, poolSum]
  | cons n rest ih =>
    have hmul : per_pool * (rest.length + 1) = per_pool * rest.length + per_pool := by ring
    by_cases h : t > per_pool
    · have hrec := ih (t - per_pool)
      simp only [buildPools, poolSum, List.map_cons, List.sum_cons, if_pos h,
        List.length_cons] at *
      omega
    · have hrec := ih 0
      simp only [buildPools, poolSum, List.map_cons, List.sum_cons, if_neg h,
        List.length_cons, Nat.sub_self] at *
      omega

/-! ## Cluster upgrade command: `VersionVerifier`
(`surface/container/clusters/upgrade.py`) -/

/-- Modelled from the spec: `googlecloudsdk.core.util.semver.SemVer` is not
among the provided sources; the spec describes it as a generic semantic
version with major, minor and patch components. -/
structure SemVer where
  major : Nat
  minor : Nat
  patch : Nat
  deriving Repr, DecidableEq

/-- Splits a character list on `.` separators. -/
def splitOnDot : List Char → List (List Char)
  | [] => [[]]
  | c :: rest =>
    if c = '.' then [] :: splitOnDot rest
    else
      match splitOnDot rest with
      | [] => [[c]]
      | h :: t => (c :: h) :: t

/-- Reads a non-empty all-digit character list as a natural number. -/
def natOfDigits : List Char → Option Nat
  | [] => none
  | cs =>
    cs.foldl
      (fun acc c =>
        match acc with
        | none => none
        | some n => if c.isDigit then some (n * 10 + (c.toNat - 48)) else none)
      (some 0)

/-- Modelled from the spec: parsing a `major.minor.patch` semantic-version
string (the `SemVer` constructor is not among the provided sources). -/
def parseSemVer (s : String) : Option SemVer :=
  match (splitOnDot s.toList).map natOfDigits with
  | [some a, some b, some c] => some { major := a, minor := b, patch := c }
  | _ => none

/-- Modelled from the spec: `SemVer.Distance` — the component-wise signed
`(major, minor, patch)` difference of two versions (the spec speaks of the
main minor exceeding the node minor by 1, 2 or 3). -/
def SemVer.Distance (a b : SemVer) : Int × Int × Int :=
  ((a.major : Int) - b.major, (a.minor : Int) - b.minor, (a.patch : Int) - b.patch)

/-- The four classification constants of `VersionVerifier`. -/
inductive VersionState
  | UP_TO_DATE
  | UPGRADE_AVAILABLE
  | SUPPORT_ENDING
  | UNSUPPORTED
  deriving Repr, DecidableEq

/-- `VersionVerifier.Compare` from upgrade.py: equal version strings are up
to date; otherwise the parsed `(major, minor)` distance decides
(`major != 0 or minor > 2` unsupported, `minor > 1` support ending, else
upgrade available).  `none` models the parse failure of an invalid string. -/
def VersionVerifier.Compare (current_main_version current_cluster_version : String) :
    Option VersionState :=
  if current_main_version = current_cluster_version then some .UP_TO_DATE
  else
    match parseSemVer current_main_version, parseSemVer current_cluster_version with
    | some main_version, some cluster_version =>
      let (major, minor, _) := main_version.Distance cluster_version
      if major ≠ 0 ∨ minor > 2 then some .UNSUPPORTED
      else if minor > 1 then some .SUPPORT_ENDING
      else some .UPGRADE_AVAILABLE
    | _, _ => none

/-! ## TPU option parsing (`APIAdapter.ParseTpuOptions`) -/

/-- `PREREQUISITE_OPTION_ERROR_MSG` from api_adapter.py. -/
def PREREQUISITE_OPTION_ERROR_MSG (prerequisite opt : String) : String :=
  "Cannot specify --" ++ opt ++ " without --" ++ prerequisite ++ ".\n"

/-- The fields of `CreateClusterOptions` that `ParseTpuOptions` reads
(constructor defaults are `None`). -/
structure TpuOptions where
  enable_tpu : Option Bool := none
  enable_kubernetes_alpha : Option Bool := none
  enable_ip_alias : Option Bool := none
  tpu_ipv4_cidr : Option String := none
  deriving Repr, DecidableEq

/-- The cluster-message field that `ParseTpuOptions` sets. -/
structure TpuCluster where
  enableTpu : Option Bool := none
  deriving Repr, DecidableEq

/-- `APIAdapter.ParseTpuOptions` from api_adapter.py. -/
def ParseTpuOptions (options : TpuOptions) (cluster : TpuCluster) :
    Except String TpuCluster :=
  if truthyBool options.enable_tpu && !truthyBool options.enable_kubernetes_alpha then
    .error (PREREQUISITE_OPTION_ERROR_MSG "enable-kubernetes-alpha" "enable-tpu")
  else if truthyBool options.enable_tpu && !truthyBool options.enable_ip_alias then
    .error (PREREQUISITE_OPTION_ERROR_MSG "enable-ip-alias" "enable-tpu")
  else if !truthyBool options.enable_tpu && truthyStr options.tpu_ipv4_cidr then
    .error (PREREQUISITE_OPTION_ERROR_MSG "enable-tpu" "tpu-ipv4-cidr")
  else if truthyBool options.enable_tpu then
    .ok { cluster with enableTpu := options.enable_tpu }
  else .ok cluster

/-! ## Cloud functions deploy: unpacked-source size ceiling
(`command_lib/functions/deploy/util.py`) -/

/-- `_ValidateUnpackedSourceSize` from functions/deploy/util.py, as a
function of the measured ignore-filtered tree size in bytes (the external
`file_utils.GetTreeSizeBytes` measurement is this function's input); the
`OversizedDeployment` payload carries the measured size and the limit,
each rendered as `str(...) + 'B'`. -/
def _ValidateUnpackedSourceSize (size_b : Nat) : Except (String × String) Unit :=
  let size_limit_mb := 512
  let size_limit_b := size_limit_mb * 2 ^ 20
  if size_b > size_limit_b then
    .error (toString size_b ++ "B", toString size_limit_b ++ "B")
  else .ok ()

/-! ## Operation polling (`APIAdapter.WaitForOperation`) -/

/-- The operation status enumeration (`Operation.StatusValueValuesEnum`). -/
inductive OperationStatus
  | PENDING
  | RUNNING
  | DONE
  deriving Repr, DecidableEq

/-- The operation fields read by the polling loop. -/
structure Operation where
  status : OperationStatus
  statusMessage : Option String := none
  detail : Option String := none
  deriving Repr, DecidableEq

/-- `IsOperationFinished`: `operation.status == DONE`. -/
def IsOperationFinished (op : Operation) : Bool :=
  match op.status with
  | .DONE => true
  | _ => false

/-- `GetOperationError`: `operation.statusMessage`. -/
def GetOperationError (op : Operation) : Option String :=
  op.statusMessage

/-- The failure modes of `WaitForOperation`: an immediate abort on HTTP 403,
the util.Error "Operation [...] is still running" timeout, the util.Error
"Operation [...] finished with error: ..." carrying the error payload, and
the NameError raised when the loop exits without `operation` ever bound. -/
inductive WaitError
  | httpForbidden (status_code : Nat)
  | stillRunning
  | finishedWithError (error : String)
  | unboundLocal
  deriving Repr, DecidableEq

/-- The epilogue of `WaitForOperation` after the while loop: re-check
`IsOperationFinished`, then fail on a truthy `GetOperationError`, else
return the operation; `none` models the loop exiting before any successful
fetch bound `operation`. -/
def finishWait : Option Operation → Except WaitError Operation
  | none => .error .unboundLocal
  | some op =>
    if !IsOperationFinished op then .error .stillRunning
    else if truthyStr (GetOperationError op) then
      .error (.finishedWithError ((GetOperationError op).getD ""))
    else .ok op

/-- The while loop of `WaitForOperation`, one recursive call per iteration.
`getOperation i` is the outcome of the `i`-th `GetOperation` fetch (an HTTP
status code on failure); time is idealized so that only the
`time.sleep(poll_period_s)` at the bottom of each iteration advances the
clock.  A non-403 fetch error is retried; a finished operation breaks out.
Returns the total fetch count with the outcome; `none` when `fuel`
iterations did not suffice. -/
def waitForOperationAux (getOperation : Nat → Except Nat Operation)
    (timeout_s poll_period_s : Nat) :
    Nat → Nat → Nat → Option Operation → Option (Nat × Except WaitError Operation)
  | 0, fetches, elapsed, last =>
    if timeout_s > elapsed then none else some (fetches, finishWait last)
  | fuel + 1, fetches, elapsed, last =>
    if timeout_s > elapsed then
      match getOperation fetches with
      | .ok operation =>
        if IsOperationFinished operation then
          some (fetches + 1, finishWait (some operation))
        else
          waitForOperationAux getOperation timeout_s poll_period_s fuel (fetches + 1)
            (elapsed + poll_period_s) (some operation)
      | .error status_code =>
        if status_code = 403 then some (fetches + 1, .error (.httpForbidden status_code))
        else
          waitForOperationAux getOperation timeout_s poll_period_s fuel (fetches + 1)
            (elapsed + poll_period_s) last
    else some (fetches, finishWait last)

/-- `APIAdapter.WaitForOperation(operation_ref, message, timeout_s,
poll_period_s)` over an abstract operation source. -/
def WaitForOperation (getOperation : Nat → Except Nat Operation)
    (timeout_s poll_period_s fuel : Nat) : Option (Nat × Except WaitError Operation) :=
  waitForOperationAux getOperation timeout_s poll_period_s fuel 0 0 none

/-- A not-yet-done operation as reported by a fake source. -/
def pendingOperation : Operation :=
  { status := .RUNNING }

/-- A successfully completed operation (empty error payload). -/
def doneOperation : Operation :=
  { status := .DONE }

/-- A fake source reporting not-done for the first `N` polls and done on
poll `N + 1`. -/
def srcDoneAfter (N : Nat) : Nat → Except Nat Operation :=
  fun i => if i < N then .ok pendingOperation else .ok doneOperation

/-- A fake source that never reports done. -/
def srcNeverDone : Nat → Except Nat Operation :=
  fun _ => .ok pendingOperation

/-- A fake source whose operation completes with a non-empty error payload. -/
def srcDoneWithError (msg : String) : Nat → Except Nat Operation :=
  fun _ => .ok { status := .DONE, statusMessage := some msg }

/-! ## Cluster label update (`APIAdapter.UpdateLabelsCommon`) -/

/-- The cluster field read by `UpdateLabelsCommon` after the re-fetch. -/
structure LabelsCluster where
  labelFingerprint : String
  deriving Repr, DecidableEq

/-- Outcome of the initial `GetCluster` call: success, an HTTP 404
(`HttpNotFoundError`), or another HTTP error. -/
inductive GetClusterResult
  | ok (cluster : LabelsCluster)
  | notFound
  | httpError (status_code : Nat)
  deriving Repr, DecidableEq

/-- The failure modes of `UpdateLabelsCommon`: re-raised HTTP errors and the
AttributeError raised by reading `labelFingerprint` off `None`. -/
inductive LabelsError
  | httpException (status_code : Nat)
  | attributeErrorNoneType
  deriving Repr, DecidableEq

/-- Lexicographic code-point comparison of character lists (Python 2
compares strings byte-wise). -/
def leChars : List Char → List Char → Bool
  | [], _ => true
  | _ :: _, [] => false
  | c :: cs, d :: ds =>
    if c.toNat < d.toNat then true
    else if d.toNat < c.toNat then false
    else leChars cs ds

/-- Python 2 string `<=`. -/
def leStr (a b : String) : Bool :=
  leChars a.toList b.toList

/-- Insertion of a key/value pair into a key-sorted list (Python `sorted`
on dict items; dict keys are unique, so key order decides). -/
def insertSorted (x : String × String) :
    List (String × String) → List (String × String)
  | [] => [x]
  | y :: rest => if leStr x.1 y.1 then x :: y :: rest else y :: insertSorted x rest

/-- `sorted(update_labels.iteritems())`. -/
def sortedPairs (l : List (String × String)) : List (String × String) :=
  l.foldr insertSorted []

/-- `APIAdapter.UpdateLabelsCommon` from api_adapter.py: `clus` starts as
`None`, `HttpNotFoundError` from `GetCluster` is swallowed (`pass`), other
HTTP errors re-raise; the sorted label list is built; the final
`return labels, clus.labelFingerprint` dereferences `clus`, which raises
AttributeError when the lookup was not-found. -/
def UpdateLabelsCommon (get_result : GetClusterResult)
    (update_labels : List (String × String)) :
    Except LabelsError (List (String × String) × String) :=
  let clus : Except LabelsError (Option LabelsCluster) :=
    match get_result with
    | .ok c => .ok (some c)
    | .notFound => .ok none
    | .httpError status_code => .error (.httpException status_code)
  match clus with
  | .error e => .error e
  | .ok clusOpt =>
    let labels := sortedPairs update_labels
    match clusOpt with
    | none => .error .attributeErrorNoneType
    | some c => .ok (labels, c.labelFingerprint)

/-! ## SQL instance settings builder (`command_lib/sql/instances.py`,
V1Beta4 dialect) -/

/-- Release tracks relevant to the SQL builder. -/
inductive ReleaseTrack
  | GA
  | BETA
  deriving Repr, DecidableEq

/-- `STORAGE_TYPE_PREFIX = 'PD_'`. -/
def STORAGE_TYPE_PREFIX : String := "PD_"

/-- Modelled from the spec: `constants.BYTES_TO_GB` (api_lib/sql/constants
is not among the provided sources) — the fixed bytes-to-gigabyte divisor. -/
def BYTES_TO_GB : Nat := 2 ^ 30

/-- `IpConfiguration` (V1Beta4 field names). -/
structure IpConfiguration where
  ipv4Enabled : Option Bool := none
  authorizedNetworks : List String := []
  requireSsl : Option Bool := none
  deriving Repr, DecidableEq

/-- `LocationPreference`. -/
structure LocationPreference where
  followGaeApplication : Option String := none
  zone : Option String := none
  deriving Repr, DecidableEq

/-- The SQL `Settings` message fields touched by the builder.  Fields whose
values come from external reducers (backup configuration, database flags,
maintenance window, user labels) hold the reducer outputs opaquely. -/
structure Settings where
  tier : Option String := none
  pricingPlan : Option String := none
  replicationType : Option String := none
  activationPolicy : Option String := none
  authorizedGaeApplications : List String := []
  ipConfiguration : Option IpConfiguration := none
  locationPreference : Option LocationPreference := none
  dataDiskSizeGb : Option Nat := none
  storageAutoResize : Option Bool := none
  storageAutoResizeLimit : Option Nat := none
  availabilityType : Option String := none
  onPremisesConfiguration : Option String := none
  backupConfiguration : Option String := none
  databaseFlags : Option String := none
  maintenanceWindow : Option String := none
  dataDiskType : Option String := none
  userLabels : Option String := none
  deriving Repr, DecidableEq

/-- `ReplicaConfiguration` (only `failoverTarget` is ever set here). -/
structure ReplicaConfiguration where
  failoverTarget : Bool
  deriving Repr, DecidableEq

/-- The SQL `DatabaseInstance` message fields touched by the builder
(V1Beta4 identity field names `project`/`name`). -/
structure DatabaseInstance where
  project : Option String := none
  name : Option String := none
  region : Option String := none
  databaseVersion : Option String := none
  mainInstanceName : Option String := none
  settings : Settings := {}
  replicaConfiguration : Option ReplicaConfiguration := none
  failoverReplica : Option String := none
  deriving Repr, DecidableEq

/-- The command-line argument fields read by the builder.  `IsSpecified`
lookups are modelled by explicit `_specified` flags. -/
structure SqlArgs where
  pricing_plan : Option String := none
  replication : Option String := none
  activation_policy : Option String := none
  authorized_gae_apps : List String := []
  assign_ip : Option Bool := none
  require_ssl : Option Bool := none
  authorized_networks : List String := []
  follow_gae_app : Option String := none
  gce_zone : Option String := none
  storage_size : Option Nat := none
  storage_auto_increase : Option Bool := none
  storage_auto_increase_limit_specified : Bool := false
  storage_auto_increase_limit : Option Nat := none
  availability_type_specified : Bool := false
  availability_type : Option String := none
  on_premises_host_port : Option String := none
  storage_type : Option String := none
  region : Option String := none
  database_version : Option String := none
  main_instance_name : Option String := none
  replica_type : Option String := none
  failover_replica_name : Option String := none
  deriving Repr, DecidableEq

/-- Outputs of the external helpers called by the builder
(`instance_prop_reducers` and `labels_util` from api_lib/sql are not among
the provided sources): `reducers.MachineType`, `reducers.BackupConfiguration`,
`reducers.DatabaseFlags`, `reducers.MaintenanceWindow`,
`labels_util.ParseCreateArgs`, and
`InstancesV1Beta4.IsPostgresDatabaseVersion`. -/
structure SqlExternals where
  machineType : Option String := none
  backupConfiguration : Option String := none
  databaseFlags : Option String := none
  maintenanceWindow : Option String := none
  userLabels : Option String := none
  isPostgres : Bool := false
  deriving Repr, DecidableEq

/-- `if args.authorized_gae_apps: settings.authorizedGaeApplications = ...`. -/
def applyGaeApps (args : SqlArgs) (s : Settings) : Settings :=
  if truthyList args.authorized_gae_apps then
    { s with authorizedGaeApplications := args.authorized_gae_apps }
  else s

/-- The IP-configuration block of `_ConstructBaseSettingsFromArgs` (V1Beta4
`SetIpConfigurationEnabled`/`SetAuthorizedNetworks`). -/
def applyIpConfiguration (args : SqlArgs) (s : Settings) : Settings :=
  if args.assign_ip.isSome || args.require_ssl.isSome ||
      truthyList args.authorized_networks then
    let ipc : IpConfiguration := {}
    let ipc := if args.assign_ip.isSome then { ipc with ipv4Enabled := args.assign_ip }
      else ipc
    let ipc := if truthyList args.authorized_networks then
        { ipc with authorizedNetworks := args.authorized_networks }
      else ipc
    let ipc := if args.require_ssl.isSome then { ipc with requireSsl := args.require_ssl }
      else ipc
    { s with ipConfiguration := some ipc }
  else s

/-- `if any([args.follow_gae_app, args.gce_zone]): settings.locationPreference = ...`. -/
def applyLocationPreference (args : SqlArgs) (s : Settings) : Settings :=
  if truthyStr args.follow_gae_app || truthyStr args.gce_zone then
    let lp : LocationPreference :=
      { followGaeApplication := args.follow_gae_app, zone := args.gce_zone }
    { s with locationPreference := some lp }
  else s

/-- `if args.storage_size: settings.dataDiskSizeGb = int(storage_size / BYTES_TO_GB)`. -/
def applyStorageSize (args : SqlArgs) (s : Settings) : Settings :=
  match args.storage_size with
  | some sz => if sz ≠ 0 then { s with dataDiskSizeGb := some (sz / BYTES_TO_GB) } else s
  | none => s

/-- `if args.storage_auto_increase is not None: settings.storageAutoResize = ...`. -/
def applyStorageAutoResize (args : SqlArgs) (s : Settings) : Settings :=
  if args.storage_auto_increase.isSome then
    { s with storageAutoResize := args.storage_auto_increase }
  else s

/-- The beta storage-auto-increase-limit check: settable only when the
original instance has auto-resize on or the new instance enables it;
`None` limits are coerced to 0. -/
def applyAutoResizeLimit (args : SqlArgs) (instance_ : Option DatabaseInstance)
    (s : Settings) : Except String Settings :=
  if args.storage_auto_increase_limit_specified then
    if (match instance_ with
        | some i => truthyBool i.settings.storageAutoResize
        | none => false) || truthyBool args.storage_auto_increase then
      .ok { s with storageAutoResizeLimit := some (args.storage_auto_increase_limit.getD 0) }
    else
      .error "To set the storage capacity limit using [--storage-auto-increase-limit], [--storage-auto-increase] must be enabled."
  else .ok s

/-- The beta availability-type override in the base settings. -/
def applyAvailabilityType (args : SqlArgs) (s : Settings) : Settings :=
  if args.availability_type_specified then { s with availabilityType := args.availability_type }
  else s

/-- `_BaseInstances._ConstructBaseSettingsFromArgs` (V1Beta4 dialect), with
external reducer outputs supplied in `ext`. -/
def _ConstructBaseSettingsFromArgs (ext : SqlExternals) (args : SqlArgs)
    (instance_ : Option DatabaseInstance) (release_track : ReleaseTrack) :
    Except String Settings :=
  let s : Settings :=
    { tier := ext.machineType, pricingPlan := args.pricing_plan,
      replicationType := args.replication, activationPolicy := args.activation_policy }
  let s := applyGaeApps args s
  let s := applyIpConfiguration args s
  let s := applyLocationPreference args s
  let s := applyStorageSize args s
  let s := applyStorageAutoResize args s
  if release_track = .BETA then
    match applyAutoResizeLimit args instance_ s with
    | .error e => .error e
    | .ok s => .ok (applyAvailabilityType args s)
  else .ok s

/-- `if args.on_premises_host_port: ...` (create only): conflicts with
`--require_ssl`, otherwise records the host/port. -/
def applyOnPremises (args : SqlArgs) (s : Settings) : Except String Settings :=
  if truthyStr args.on_premises_host_port then
    if truthyBool args.require_ssl then
      .error "Argument --on-premises-host-port not allowed with --require_ssl"
    else .ok { s with onPremisesConfiguration := args.on_premises_host_port }
  else .ok s

/-- `AddBackupConfigToSettings` (V1Beta4), applied only when the reducer
produced a truthy configuration. -/
def applyBackupConfig (ext : SqlExternals) (s : Settings) : Settings :=
  match ext.backupConfiguration with
  | some bc => { s with backupConfiguration := some bc }
  | none => s

/-- `if args.storage_type: settings.dataDiskType = 'PD_' + args.storage_type`. -/
def applyStorageType (args : SqlArgs) (s : Settings) : Settings :=
  if truthyStr args.storage_type then
    { s with dataDiskType := some (STORAGE_TYPE_PREFIX ++ args.storage_type.getD "") }
  else s

/-- The beta-only tail of the create-settings construction: user labels and
the Postgres-only availability-type restriction. -/
def applyBetaCreate (ext : SqlExternals) (args : SqlArgs) (s : Settings) :
    Except String Settings :=
  let s := { s with userLabels := ext.userLabels }
  if args.availability_type_specified && !ext.isPostgres then
    .error "Cannot set [--availability-type] on a non-Postgres instance."
  else .ok s

/-- `_BaseInstances._ConstructCreateSettingsFromArgs` (V1Beta4 dialect). -/
def _ConstructCreateSettingsFromArgs (ext : SqlExternals) (args : SqlArgs)
    (instance_ : Option DatabaseInstance) (release_track : ReleaseTrack) :
    Except String Settings :=
  match _ConstructBaseSettingsFromArgs ext args instance_ release_track with
  | .error e => .error e
  | .ok s =>
    match applyOnPremises args s with
    | .error e => .error e
    | .ok s =>
      let s := applyBackupConfig ext s
      let s := { s with databaseFlags := ext.databaseFlags }
      let s := { s with maintenanceWindow := ext.maintenanceWindow }
      let s := applyStorageType args s
      if release_track = .BETA then applyBetaCreate ext args s
      else .ok s

/-- `_BaseInstances._ConstructBaseInstanceFromArgs` with the V1Beta4
`SetProjectAndInstanceFromRef`. -/
def _ConstructBaseInstanceFromArgs (instance_ref : Option (String × String)) :
    DatabaseInstance :=
  match instance_ref with
  | some pi => { project := some pi.1, name := some pi.2 }
  | none => {}

/-- `_BaseInstances.ConstructCreateInstanceFromArgs`: base instance,
create settings, replication-type inference (`SYNCHRONOUS` without a main
instance, `ASYNCHRONOUS` with one — plus a failover-target replica
configuration for replica-type FAILOVER — applied only when no explicit
`--replication` was given), and the failover-replica name. -/
def ConstructCreateInstanceFromArgs (ext : SqlExternals) (args : SqlArgs)
    (original : Option DatabaseInstance) (instance_ref : Option (String × String))
    (release_track : ReleaseTrack) : Except String DatabaseInstance :=
  let instance_resource := _ConstructBaseInstanceFromArgs instance_ref
  let instance_resource :=
    { instance_resource with
      region := args.region,
      databaseVersion := args.database_version,
      mainInstanceName := args.main_instance_name }
  match _ConstructCreateSettingsFromArgs ext args original release_track with
  | .error e => .error e
  | .ok s =>
    let instance_resource := { instance_resource with settings := s }
    let replication :=
      if truthyStr args.main_instance_name then "ASYNCHRONOUS" else "SYNCHRONOUS"
    let instance_resource :=
      if truthyStr args.main_instance_name && decide (args.replica_type = some "FAILOVER") then
        { instance_resource with replicaConfiguration := some { failoverTarget := true } }
      else instance_resource
    let instance_resource :=
      if !truthyStr args.replication then
        { instance_resource with settings :=
            { instance_resource.settings with replicationType := some replication } }
      else instance_resource
    if truthyStr args.failover_replica_name then
      .ok { instance_resource with failoverReplica := args.failover_replica_name }
    else .ok instance_resource

/-! ## Cluster update (`APIAdapter.UpdateClusterCommon`) -/

/-- `MISMATCH_AUTHORIZED_NETWORKS_ERROR_MSG` from api_adapter.py (joined). -/
def MISMATCH_AUTHORIZED_NETWORKS_ERROR_MSG : String :=
  "Cannot use --main-authorized-networks if --enable-main-authorized-networks is not specified."

/-- `NO_AUTOPROVISIONING_MSG` from api_adapter.py (joined). -/
def NO_AUTOPROVISIONING_MSG : String :=
  "Node autoprovisioning is currently in alpha. Please contact GKE support if you're interested in enabling alpha features in your cluster.\n"

/-- The `disable_addons` dict of `UpdateClusterOptions`, keyed by the four
addon names. -/
structure DisableAddons where
  ingress : Option Bool := none
  hpa : Option Bool := none
  dashboard : Option Bool := none
  network_policy : Option Bool := none
  deriving Repr, DecidableEq

/-- The fields of `UpdateClusterOptions` read by `UpdateClusterCommon`
(constructor defaults are `None`). -/
structure UpdateClusterOptions where
  version : Option String := none
  update_nodes : Option Bool := none
  node_pool : Option String := none
  image_type : Option String := none
  update_main : Option Bool := none
  monitoring_service : Option String := none
  disable_addons : Option DisableAddons := none
  enable_autoscaling : Option Bool := none
  min_nodes : Option Nat := none
  max_nodes : Option Nat := none
  locations : List String := []
  enable_main_authorized_networks : Option Bool := none
  main_authorized_networks : List String := []
  enable_autoprovisioning : Option Bool := none
  enable_pod_security_policy : Option Bool := none
  enable_binauthz : Option Bool := none
  deriving Repr, DecidableEq

/-- `AddonsConfig`: each addon entry is present (with its `disabled` value)
exactly when the corresponding argument was explicitly determined. -/
structure AddonsConfig where
  httpLoadBalancingDisabled : Option Bool := none
  horizontalPodAutoscalingDisabled : Option Bool := none
  kubernetesDashboardDisabled : Option Bool := none
  networkPolicyConfigDisabled : Option Bool := none
  deriving Repr, DecidableEq

/-- `NodePoolAutoscaling` as built in the update path. -/
structure NodePoolAutoscaling where
  enabled : Bool
  minNodeCount : Option Nat := none
  maxNodeCount : Option Nat := none
  deriving Repr, DecidableEq

/-- `MainAuthorizedNetworksConfig`. -/
structure MainAuthorizedNetworksConfig where
  enabled : Bool
  cidrBlocks : List String := []
  deriving Repr, DecidableEq

/-- The cluster-autoscaling message produced by
`CreateClusterAutoscalingCommon`; its contents are alpha-adapter-specific
and opaque at this level. -/
structure ClusterAutoscaling where
  payload : String := ""
  deriving Repr, DecidableEq

/-- The `ClusterUpdate` message: each branch of `UpdateClusterCommon` sets
exactly its own fields. -/
structure ClusterUpdate where
  desiredNodeVersion : Option String := none
  desiredNodePoolId : Option String := none
  desiredImageType : Option String := none
  desiredMainVersion : Option String := none
  desiredMonitoringService : Option String := none
  desiredAddonsConfig : Option AddonsConfig := none
  desiredNodePoolAutoscaling : Option NodePoolAutoscaling := none
  desiredLocations : List String := []
  desiredMainAuthorizedNetworksConfig : Option MainAuthorizedNetworksConfig := none
  desiredClusterAutoscaling : Option ClusterAutoscaling := none
  desiredPodSecurityPolicyConfig : Option Bool := none
  desiredBinaryAuthorization : Option Bool := none
  deriving Repr, DecidableEq

/-- The outcomes of `UpdateClusterCommon` other than a returned update: the
authorized-networks mismatch `util.Error`, the `NO_AUTOPROVISIONING_MSG`
`util.Error` raised by the base adapter's `CreateClusterAutoscalingCommon`,
and the UnboundLocalError raised by `return update` when no branch
assigned `update`. -/
inductive UpdateError
  | mismatchAuthorizedNetworks
  | noAutoprovisioning
  | unboundLocal
  deriving Repr, DecidableEq

/-- `_AddonsConfig` as invoked from the update path: an entry is set only
for a non-`None` disable argument (directly encoded by the `Option`). -/
def _AddonsConfig (disable_ingress disable_hpa disable_dashboard
    disable_network_policy : Option Bool) : AddonsConfig :=
  { httpLoadBalancingDisabled := disable_ingress,
    horizontalPodAutoscalingDisabled := disable_hpa,
    kubernetesDashboardDisabled := disable_dashboard,
    networkPolicyConfigDisabled := disable_network_policy }

/-- The base `APIAdapter.CreateClusterAutoscalingCommon`: raises
`NO_AUTOPROVISIONING_MSG` (only the alpha adapter overrides it). -/
def CreateClusterAutoscalingCommonBase :
    UpdateClusterOptions → Except UpdateError ClusterAutoscaling :=
  fun _ => .error .noAutoprovisioning

/-- `APIAdapter.UpdateClusterCommon`: version defaults to `'-'`; the ten
update kinds are checked in fixed priority order and at most one payload is
built (`update` stays unassigned when none matches); the dynamic
`self.CreateClusterAutoscalingCommon` is the `createClusterAutoscaling`
parameter; the authorized-networks mismatch check runs before
`return update`, which raises UnboundLocalError when no branch fired. -/
def UpdateClusterCommon
    (createClusterAutoscaling :
      UpdateClusterOptions → Except UpdateError ClusterAutoscaling)
    (options : UpdateClusterOptions) : Except UpdateError ClusterUpdate :=
  let version := if truthyStr options.version then options.version else some "-"
  let update? : Except UpdateError (Option ClusterUpdate) :=
    if truthyBool options.update_nodes then
      .ok (some { desiredNodeVersion := version,
                  desiredNodePoolId := options.node_pool,
                  desiredImageType := options.image_type })
    else if truthyBool options.update_main then
      .ok (some { desiredMainVersion := version })
    else if truthyStr options.monitoring_service then
      .ok (some { desiredMonitoringService := options.monitoring_service })
    else if options.disable_addons.isSome then
      .ok (some { desiredAddonsConfig := some (_AddonsConfig
            ((options.disable_addons.getD {}).ingress)
            ((options.disable_addons.getD {}).hpa)
            ((options.disable_addons.getD {}).dashboard)
            ((options.disable_addons.getD {}).network_policy)) })
    else if options.enable_autoscaling.isSome then
      let autoscaling : NodePoolAutoscaling :=
        if truthyBool options.enable_autoscaling then
          { enabled := options.enable_autoscaling.getD false,
            minNodeCount := options.min_nodes, maxNodeCount := options.max_nodes }
        else { enabled := options.enable_autoscaling.getD false }
      .ok (some { desiredNodePoolId := options.node_pool,
                  desiredNodePoolAutoscaling := some autoscaling })
    else if truthyList options.locations then
      .ok (some { desiredLocations := options.locations })
    else if options.enable_main_authorized_networks.isSome then
      let authorized_networks : MainAuthorizedNetworksConfig :=
        { enabled := options.enable_main_authorized_networks.getD false,
          cidrBlocks :=
            if truthyList options.main_authorized_networks then
              options.main_authorized_networks
            else [] }
      .ok (some { desiredMainAuthorizedNetworksConfig := some authorized_networks })
    else if options.enable_autoprovisioning.isSome then
      match createClusterAutoscaling options with
      | .error e => .error e
      | .ok autoscaling => .ok (some { desiredClusterAutoscaling := some autoscaling })
    else if options.enable_pod_security_policy.isSome then
      .ok (some { desiredPodSecurityPolicyConfig := options.enable_pod_security_policy })
    else if options.enable_binauthz.isSome then
      .ok (some { desiredBinaryAuthorization := options.enable_binauthz })
    else .ok none
  match update? with
  | .error e => .error e
  | .ok u =>
    if truthyList options.main_authorized_networks &&
        !truthyBool options.enable_main_authorized_networks then
      .error .mismatchAuthorizedNetworks
    else
      match u with
      | some update => .ok update
      | none => .error .unboundLocal

/-- The disjunction of the ten branch conditions of `UpdateClusterCommon`,
in source order: whether any update kind is populated. -/
def updateKindPopulated (options : UpdateClusterOptions) : Bool :=
  truthyBool options.update_nodes || truthyBool options.update_main ||
  truthyStr options.monitoring_service || options.disable_addons.isSome ||
  options.enable_autoscaling.isSome || truthyList options.locations ||
  options.enable_main_authorized_networks.isSome ||
  options.enable_autoprovisioning.isSome ||
  options.enable_pod_security_policy.isSome || options.enable_binauthz.isSome

lemma truthyBool_of_isSome_false (o : Option Bool) (h : o.isSome = false) :
    truthyBool o = false := by
  cases o with
  | none => rfl
  | some b => simp at h

lemma lookup_filter_self {α : Type} (l : List (String × α)) (key : String) :
    (l.filter (fun e => e.1 != key)).lookup key = none := by
  induction l with
  | nil => rfl
  | cons a rest ih =>
    obtain ⟨k, v⟩ := a
    by_cases h : k = key
    · simp [List.filter_cons, h, ih]
    · have hb : (key == k) = false := beq_eq_false_iff_ne.mpr (Ne.symm h)
      simp [List.filter_cons, h, List.lookup, hb, ih]

lemma lookup_filter_other {α : Type} (l : List (String × α)) (key k : String) (hk : k ≠ key) :
    (l.filter (fun e => e.1 != key)).lookup k = l.lookup k := by
  induction l with
  | nil => rfl
  | cons a rest ih =>
    obtain ⟨k', v⟩ := a
    by_cases h : k' = key
    · subst h
      have hb : (k == k') = false := beq_eq_false_iff_ne.mpr hk
      simp [List.filter_cons, List.lookup, hb, ih]
    · rw [List.filter_cons, if_pos (by simp [h])]
      by_cases hkk : k = k'
      · subst hkk
        simp [List.lookup]
      · have hb : (k == k') = false := beq_eq_false_iff_ne.mpr hkk
        simp [List.lookup, hb, ih]

lemma applyCert_fields (u : UserBody) (cp cd : Option String) :
    (applyCert u cp cd).auth_provider = u.auth_provider ∧
    (applyCert u cp cd).token = u.token ∧
    (applyCert u cp cd).username = u.username ∧
    (applyCert u cp cd).password = u.password := by
  unfold applyCert
  split
  · simp
  · split <;> simp

lemma applyKey_fields (u : UserBody) (kp kd : Option String) :
    (applyKey u kp kd).auth_provider = u.auth_provider ∧
    (applyKey u kp kd).token = u.token ∧
    (applyKey u kp kd).username = u.username ∧
    (applyKey u kp kd).password = u.password := by
  unfold applyKey
  split
  · simp
  · split <;> simp

lemma userBody_auth_provider (env : AuthProviderEnv)
    (token username password auth_provider : Option String) (a : AuthProviderEntry)
    (hap : truthyStr auth_provider = true)
    (hA : _AuthProvider env (auth_provider.getD "") = .ok a) :
    userBody env token username password auth_provider = .ok { auth_provider := some a } := by
  unfold userBody
  rw [if_pos hap, hA]

lemma userBody_token (env : AuthProviderEnv)
    (token username password auth_provider : Option String)
    (hap : truthyStr auth_provider = false) (htok : truthyStr token = true) :
    userBody env token username password auth_provider = .ok { token := token } := by
  unfold userBody
  rw [if_neg (by simp [hap]), if_pos htok]

lemma userBody_basic (env : AuthProviderEnv)
    (token username password auth_provider : Option String)
    (hap : truthyStr auth_provider = false) (htok : truthyStr token = false) :
    userBody env token username password auth_provider =
      .ok { username := some username, password := some password } := by
  unfold userBody
  rw [if_neg (by simp [hap]), if_neg (by simp [htok])]

lemma poolNames_length (n m : Nat) (_hn : 1 ≤ n) (_hm : 1 ≤ m) :
    (poolNames n m).length = (n + m - 1) / m := by
  unfold poolNames
  by_cases h : (n + m - 1) / m = 1
  · simp [h]
  · simp [h]

lemma ceil_pos (n m : Nat) (hn : 1 ≤ n) (hm : 1 ≤ m) :
    1 ≤ (n + m - 1) / m := by
  have : m ≤ n + m - 1 := by omega
  exact Nat.one_le_div_iff hm |>.mpr this

lemma per_pool_mul_ge (n c : Nat) (hc : 1 ≤ c) :
    n ≤ (n + c - 1) / c * c := by
  have h := Nat.mod_lt (n + c - 1) (show 0 < c by omega)
  have h2 := Nat.div_add_mod (n + c - 1) c
  have h3 : c * ((n + c - 1) / c) = (n + c - 1) / c * c := Nat.mul_comm _ _
  omega

lemma applyGaeApps_rt (args : SqlArgs) (s : Settings) :
    (applyGaeApps args s).replicationType = s.replicationType := by
  unfold applyGaeApps
  split <;> rfl

lemma applyIpConfiguration_rt (args : SqlArgs) (s : Settings) :
    (applyIpConfiguration args s).replicationType = s.replicationType := by
  unfold applyIpConfiguration
  split <;> rfl

lemma applyLocationPreference_rt (args : SqlArgs) (s : Settings) :
    (applyLocationPreference args s).replicationType = s.replicationType := by
  unfold applyLocationPreference
  split <;> rfl

lemma applyStorageSize_rt (args : SqlArgs) (s : Settings) :
    (applyStorageSize args s).replicationType = s.replicationType := by
  unfold applyStorageSize
  split
  · split <;> rfl
  · rfl

lemma applyStorageAutoResize_rt (args : SqlArgs) (s : Settings) :
    (applyStorageAutoResize args s).replicationType = s.replicationType := by
  unfold applyStorageAutoResize
  split <;> rfl

lemma applyAvailabilityType_rt (args : SqlArgs) (s : Settings) :
    (applyAvailabilityType args s).replicationType = s.replicationType := by
  unfold applyAvailabilityType
  split <;> rfl

lemma applyBackupConfig_rt (ext : SqlExternals) (s : Settings) :
    (applyBackupConfig ext s).replicationType = s.replicationType := by
  unfold applyBackupConfig
  cases ext.backupConfiguration <;> rfl

lemma applyStorageType_rt (args : SqlArgs) (s : Settings) :
    (applyStorageType args s).replicationType = s.replicationType := by
  unfold applyStorageType
  split <;> rfl

lemma applyAutoResizeLimit_rt (args : SqlArgs) (instance_ : Option DatabaseInstance)
    (s s' : Settings) (h : applyAutoResizeLimit args instance_ s = .ok s') :
    s'.replicationType = s.replicationType := by
  unfold applyAutoResizeLimit at h
  split at h
  · split at h
    · simp only [Except.ok.injEq] at h
      subst h
      rfl
    · exact absurd h (by simp)
  · simp only [Except.ok.injEq] at h
    subst h
    rfl

lemma applyOnPremises_rt (args : SqlArgs) (s s' : Settings)
    (h : applyOnPremises args s = .ok s') :
    s'.replicationType = s.replicationType := by
  unfold applyOnPremises at h
  split at h
  · split at h
    · exact absurd h (by simp)
    · simp only [Except.ok.injEq] at h
      subst h
      rfl
  · simp only [Except.ok.injEq] at h
    subst h
    rfl

lemma applyBetaCreate_rt (ext : SqlExternals) (args : SqlArgs) (s s' : Settings)
    (h : applyBetaCreate ext args s = .ok s') :
    s'.replicationType = s.replicationType := by
  unfold applyBetaCreate at h
  split at h
  · exact absurd h (by simp)
  · simp only [Except.ok.injEq] at h
    subst h
    rfl

lemma baseSettings_rt (ext : SqlExternals) (args : SqlArgs)
    (instance_ : Option DatabaseInstance) (release_track : ReleaseTrack)
    (s : Settings) (h : _ConstructBaseSettingsFromArgs ext args instance_ release_track = .ok s) :
    s.replicationType = args.replication := by
  unfold _ConstructBaseSettingsFromArgs at h
  simp only [] at h
  have h5 :
      (applyStorageAutoResize args (applyStorageSize args (applyLocationPreference args
        (applyIpConfiguration args (applyGaeApps args
          { tier := ext.machineType, pricingPlan := args.pricing_plan,
            replicationType := args.replication,
            activationPolicy := args.activation_policy }))))).replicationType =
        args.replication := by
    rw [applyStorageAutoResize_rt, applyStorageSize_rt, applyLocationPreference_rt,
      applyIpConfiguration_rt, applyGaeApps_rt]
  split at h
  · cases hlim : applyAutoResizeLimit args instance_
        (applyStorageAutoResize args (applyStorageSize args (applyLocationPreference args
          (applyIpConfiguration args (applyGaeApps args
            { tier := ext.machineType, pricingPlan := args.pricing_plan,
              replicationType := args.replication,
              activationPolicy := args.activation_policy }))))) with
    | error e =>
      rw [hlim] at h
      exact absurd h (by simp)
    | ok s6 =>
      rw [hlim] at h
      simp only [Except.ok.injEq] at h
      subst h
      rw [applyAvailabilityType_rt]
      rw [applyAutoResizeLimit_rt args instance_ _ s6 hlim]
      exact h5
  · simp only [Except.ok.injEq] at h
    subst h
    exact h5

lemma createSettings_rt (ext : SqlExternals) (args : SqlArgs)
    (instance_ : Option DatabaseInstance) (release_track : ReleaseTrack)
    (s : Settings)
    (h : _ConstructCreateSettingsFromArgs ext args instance_ release_track = .ok s) :
    s.replicationType = args.replication := by
  unfold _ConstructCreateSettingsFromArgs at h
  cases hb : _ConstructBaseSettingsFromArgs ext args instance_ release_track with
  | error e =>
    rw [hb] at h
    exact absurd h (by simp)
  | ok s0 =>
    rw [hb] at h
    simp only [] at h
    cases hop : applyOnPremises args s0 with
    | error e =>
      rw [hop] at h
      exact absurd h (by simp)
    | ok s1 =>
      rw [hop] at h
      simp only [] at h
      have h4 :
          (applyStorageType args
            { { applyBackupConfig ext s1 with databaseFlags := ext.databaseFlags } with
              maintenanceWindow := ext.maintenanceWindow }).replicationType =
            s1.replicationType := by
        rw [applyStorageType_rt]
        exact applyBackupConfig_rt ext s1
      have hchain : s1.replicationType = args.replication := by
        rw [applyOnPremises_rt args s0 s1 hop]
        exact baseSettings_rt ext args instance_ release_track s0 hb
      split at h
      · rw [applyBetaCreate_rt ext args _ s h, h4, hchain]
      · simp only [Except.ok.injEq] at h
        subst h
        rw [h4, hchain]

lemma isFinished_pending : IsOperationFinished pendingOperation = false := rfl

lemma isFinished_done : IsOperationFinished doneOperation = true := rfl

lemma finishWait_done : finishWait (some doneOperation) = .ok doneOperation := rfl

lemma finishWait_pending : finishWait (some pendingOperation) = .error .stillRunning := rfl

lemma wait_srcDoneAfter (N timeout_s : Nat) (ht : 0 < timeout_s) :
    ∀ fuel fetches last, fetches ≤ N → N - fetches < fuel →
      waitForOperationAux (srcDoneAfter N) timeout_s 0 fuel fetches 0 last =
        some (N + 1, .ok doneOperation) := by
  intro fuel
  induction fuel with
  | zero =>
    intro fetches last hle hlt
    omega
  | succ f ih =>
    intro fetches last hle hlt
    by_cases hf : fetches < N
    · have hsrc : srcDoneAfter N fetches = .ok pendingOperation := by
        simp [srcDoneAfter, hf]
      rw [waitForOperationAux, if_pos ht, hsrc]
      simp only [isFinished_pending, Bool.false_eq_true, if_false, Nat.zero_add,
        Nat.add_zero]
      exact ih (fetches + 1) (some pendingOperation) (by omega) (by omega)
    · have hfe : fetches = N := by omega
      have hsrc : srcDoneAfter N fetches = .ok doneOperation := by
        simp [srcDoneAfter, hfe]
      rw [waitForOperationAux, if_pos ht, hsrc]
      rw [hfe]
      simp only [isFinished_done, if_true, finishWait_done]

lemma wait_srcNeverDone (timeout_s p : Nat) :
    ∀ fuel elapsed fetches, timeout_s ≤ elapsed + fuel * p →
      ∃ k, waitForOperationAux srcNeverDone timeout_s p fuel fetches elapsed
        (some pendingOperation) = some (k, .error .stillRunning) := by
  intro fuel
  induction fuel with
  | zero =>
    intro elapsed fetches hb
    refine ⟨fetches, ?_⟩
    rw [waitForOperationAux, if_neg (by omega), finishWait_pending]
  | succ f ih =>
    intro elapsed fetches hb
    by_cases hcond : timeout_s > elapsed
    · have hmul : (f + 1) * p = f * p + p := by ring
      obtain ⟨k, hk⟩ := ih (elapsed + p) (fetches + 1) (by omega)
      refine ⟨k, ?_⟩
      rw [waitForOperationAux, if_pos hcond]
      simp only [srcNeverDone, isFinished_pending, Bool.false_eq_true, if_false]
      exact hk
    · refine ⟨fetches, ?_⟩
      rw [waitForOperationAux, if_neg hcond, finishWait_pending]

end GCloud

/-- C1: Node-pool sharding in `CreateClusterCommon` — for `num_nodes ≥ 1` and
`max_nodes_per_pool ≥ 1` the generated pools sum to `num_nodes`, the pool
count is `ceil(num_nodes / max_nodes_per_pool)`, a single pool is named
`default-pool` and several pools `default-pool-0`, `default-pool-1`, ... in
order; per-pool counts are `min(per_pool, remaining)` for
`per_pool = ceil(num_nodes / pool_count)`, so `num_nodes = 2500` with
`max_nodes_per_pool = 1000` yields 3 pools with counts 834, 834, 832. -/
theorem createNodePools_partitions (n m : Nat) (hn : 1 ≤ n) (hm : 1 ≤ m) :
    GCloud.poolSum (GCloud.createNodePools n m) = n ∧
    (GCloud.createNodePools n m).length = (n + m - 1) / m ∧
    ((GCloud.createNodePools n m).map (fun p => p.name) =
      if (n + m - 1) / m = 1 then ["default-pool"]
      else (List.range ((n + m - 1) / m)).map (fun i => "default-pool-" ++ toString i)) ∧
    (GCloud.createNodePools 2500 1000).map (fun p => p.initialNodeCount) = [834, 834, 832] := by
  refine ⟨?_, ?_, ?_, by decide⟩
  · unfold GCloud.createNodePools
    rw [GCloud.buildPools_sum]
    have hc : 1 ≤ (GCloud.poolNames n m).length := by
      rw [GCloud.poolNames_length n m hn hm]
      exact GCloud.ceil_pos n m hn hm
    have := GCloud.per_pool_mul_ge n (GCloud.poolNames n m).length hc
    omega
  · unfold GCloud.createNodePools
    rw [GCloud.buildPools_length, GCloud.poolNames_length n m hn hm]
  · unfold GCloud.createNodePools
    rw [GCloud.buildPools_names]
    unfold GCloud.poolNames
    by_cases h : (n + m - 1) / m = 1
    · simp [h]
    · simp [h]

/-- Witness for C1 at `n = 5`, `m = 2`. -/
theorem createNodePools_partitions_witness :
    GCloud.poolSum (GCloud.createNodePools 5 2) = 5 ∧
    (GCloud.createNodePools 5 2).length = (5 + 2 - 1) / 2 ∧
    ((GCloud.createNodePools 5 2).map (fun p => p.name) =
      if (5 + 2 - 1) / 2 = 1 then ["default-pool"]
      else (List.range ((5 + 2 - 1) / 2)).map (fun i => "default-pool-" ++ toString i)) ∧
    (GCloud.createNodePools 2500 1000).map (fun p => p.initialNodeCount) = [834, 834, 832] :=
  createNodePools_partitions 5 2 (by decide) (by decide)

/-- C1 counterexample: at `num_nodes = 2500`, `max_nodes_per_pool = 1000` the
code assigns counts 834, 834, 832 — not the claimed 834, 833, 833. -/
theorem createNodePools_2500_1000_not_claimed_counts :
    (GCloud.createNodePools 2500 1000).map (fun p => p.initialNodeCount) = [834, 834, 832] ∧
    (GCloud.createNodePools 2500 1000).map (fun p => p.initialNodeCount) ≠ [834, 833, 833] := by
  constructor
  · decide
  · decide

/-- C2 counterexample: `User` with only `cert_path` supplied (no
auth-provider, no token, no username/password) succeeds instead of failing:
the source guard also accepts `cert_path`/`cert_data` as auth info. -/
theorem User_cert_path_alone_succeeds :
    GCloud.User { use_app_default_credentials := false, isWindows := false,
                  sdk_bin_path := some "/sdk/bin" } "user"
      none none none none (some "cert.pem") none none none =
    .ok { name := "user",
          user := { username := some none, password := some none,
                    client_certificate := some "cert.pem" } } := by rfl

/-- C2 (amended): `User` fails unless at least one of auth_provider, token,
cert_path, cert_data, or username-and-password is supplied; on success the
user body follows the precedence auth-provider, then token, then
username/password; and supplying both members of the cert path/data pair or
of the key path/data pair always fails. -/
theorem User_spec (env : GCloud.AuthProviderEnv) (name : String)
    (token username password auth_provider cert_path cert_data key_path key_data :
      Option String) :
    (GCloud.noAuthInfo token username password auth_provider cert_path cert_data = true →
      GCloud.User env name token username password auth_provider cert_path cert_data
          key_path key_data =
        .error "either auth_provider, token or username & password must be provided") ∧
    (∀ e, GCloud.User env name token username password auth_provider cert_path cert_data
          key_path key_data = .ok e →
      GCloud.truthyStr auth_provider = true →
      e.user.auth_provider.isSome = true ∧ e.user.token = none ∧
      e.user.username = none ∧ e.user.password = none) ∧
    (∀ e, GCloud.User env name token username password auth_provider cert_path cert_data
          key_path key_data = .ok e →
      GCloud.truthyStr auth_provider = false → GCloud.truthyStr token = true →
      e.user.token = token ∧ e.user.auth_provider = none ∧
      e.user.username = none ∧ e.user.password = none) ∧
    (∀ e, GCloud.User env name token username password auth_provider cert_path cert_data
          key_path key_data = .ok e →
      GCloud.truthyStr auth_provider = false → GCloud.truthyStr token = false →
      e.user.username = some username ∧ e.user.password = some password ∧
      e.user.auth_provider = none ∧ e.user.token = none) ∧
    (GCloud.truthyStr cert_path = true → GCloud.truthyStr cert_data = true →
      GCloud.exceptOk (GCloud.User env name token username password auth_provider cert_path
        cert_data key_path key_data) = false) ∧
    (GCloud.truthyStr key_path = true → GCloud.truthyStr key_data = true →
      GCloud.exceptOk (GCloud.User env name token username password auth_provider cert_path
        cert_data key_path key_data) = false) := by
  refine ⟨?_, ?_, ?_, ?_, ?_, ?_⟩
  · intro h
    simp [GCloud.User, h]
  · intro e he hap
    unfold GCloud.User at he
    split at he
    · exact absurd he (by simp)
    · cases hA : GCloud._AuthProvider env (auth_provider.getD "") with
      | error msg =>
        rw [GCloud.userBody, if_pos hap, hA] at he
        exact absurd he (by simp)
      | ok ap =>
        rw [GCloud.userBody_auth_provider env token username password auth_provider ap hap hA]
          at he
        simp only [] at he
        split at he
        · exact absurd he (by simp)
        · split at he
          · exact absurd he (by simp)
          · simp only [Except.ok.injEq] at he
            subst he
            obtain ⟨h1, h2, h3, h4⟩ := GCloud.applyKey_fields
              (GCloud.applyCert { auth_provider := some ap } cert_path cert_data)
              key_path key_data
            obtain ⟨g1, g2, g3, g4⟩ := GCloud.applyCert_fields
              ({ auth_provider := some ap } : GCloud.UserBody) cert_path cert_data
            exact ⟨by simp [h1, g1], by simp [h2, g2], by simp [h3, g3], by simp [h4, g4]⟩
  · intro e he hap htok
    unfold GCloud.User at he
    split at he
    · exact absurd he (by simp)
    · rw [GCloud.userBody_token env token username password auth_provider hap htok] at he
      simp only [] at he
      split at he
      · exact absurd he (by simp)
      · split at he
        · exact absurd he (by simp)
        · simp only [Except.ok.injEq] at he
          subst he
          obtain ⟨h1, h2, h3, h4⟩ := GCloud.applyKey_fields
            (GCloud.applyCert { token := token } cert_path cert_data) key_path key_data
          obtain ⟨g1, g2, g3, g4⟩ := GCloud.applyCert_fields
            ({ token := token } : GCloud.UserBody) cert_path cert_data
          exact ⟨by simp [h2, g2], by simp [h1, g1], by simp [h3, g3], by simp [h4, g4]⟩
  · intro e he hap htok
    unfold GCloud.User at he
    split at he
    · exact absurd he (by simp)
    · rw [GCloud.userBody_basic env token username password auth_provider hap htok] at he
      simp only [] at he
      split at he
      · exact absurd he (by simp)
      · split at he
        · exact absurd he (by simp)
        · simp only [Except.ok.injEq] at he
          subst he
          obtain ⟨h1, h2, h3, h4⟩ := GCloud.applyKey_fields
            (GCloud.applyCert { username := some username, password := some password }
              cert_path cert_data) key_path key_data
          obtain ⟨g1, g2, g3, g4⟩ := GCloud.applyCert_fields
            ({ username := some username, password := some password } : GCloud.UserBody)
            cert_path cert_data
          exact ⟨by simp [h3, g3], by simp [h4, g4], by simp [h1, g1], by simp [h2, g2]⟩
  · intro hcp hcd
    unfold GCloud.User
    split
    · rfl
    · cases hB : GCloud.userBody env token username password auth_provider with
      | error msg => simp [GCloud.exceptOk]
      | ok user => simp [GCloud.exceptOk, hcp, hcd]
  · intro hkp hkd
    unfold GCloud.User
    split
    · rfl
    · cases hB : GCloud.userBody env token username password auth_provider with
      | error msg => simp [GCloud.exceptOk]
      | ok user =>
        simp only []
        split
        · rfl
        · simp [GCloud.exceptOk, hkp, hkd]

/-- Witness for C2: the empty invocation fails with the fixed message; a
token-only invocation builds a token body; both cert members together fail. -/
theorem User_spec_witness :
    GCloud.User ⟨false, false, some "/sdk/bin"⟩ "u"
        none none none none none none none none =
      .error "either auth_provider, token or username & password must be provided" ∧
    (({ name := "u", user := { token := some "tok" } } : GCloud.UserEntry).user.token =
        some "tok" ∧
      ({ name := "u", user := { token := some "tok" } } : GCloud.UserEntry).user.auth_provider =
        none ∧
      ({ name := "u", user := { token := some "tok" } } : GCloud.UserEntry).user.username =
        none ∧
      ({ name := "u", user := { token := some "tok" } } : GCloud.UserEntry).user.password =
        none) ∧
    GCloud.exceptOk (GCloud.User ⟨false, false, some "/sdk/bin"⟩ "u"
        (some "tok") none none none (some "c.pem") (some "certdata") none none) = false := by
  refine ⟨?_, ?_, ?_⟩
  · exact (User_spec ⟨false, false, some "/sdk/bin"⟩ "u"
      none none none none none none none none).1 (by decide)
  · exact (User_spec ⟨false, false, some "/sdk/bin"⟩ "u"
      (some "tok") none none none none none none none).2.2.1 _ rfl rfl rfl
  · exact (User_spec ⟨false, false, some "/sdk/bin"⟩ "u"
      (some "tok") none none none (some "c.pem") (some "certdata") none none).2.2.2.2.1
      rfl rfl

/-- C5: `Kubeconfig.Clear key` removes `key` from all three collections,
preserves every other entry, resets `current-context` to the empty string
exactly when it equals `key`, is a no-op when `key` is absent everywhere and
is not the current context, and on a state whose three collections hold
exactly `key` with `current-context = key` it empties everything. -/
theorem Kubeconfig_Clear_spec {C U X : Type} (cfg : GCloud.Kubeconfig C U X) (key : String) :
    (cfg.Clear key).clusters.lookup key = none ∧
    (cfg.Clear key).users.lookup key = none ∧
    (cfg.Clear key).contexts.lookup key = none ∧
    (∀ k, k ≠ key →
      (cfg.Clear key).clusters.lookup k = cfg.clusters.lookup k ∧
      (cfg.Clear key).users.lookup k = cfg.users.lookup k ∧
      (cfg.Clear key).contexts.lookup k = cfg.contexts.lookup k) ∧
    ((cfg.Clear key).currentContext =
      if cfg.currentContext = key then "" else cfg.currentContext) ∧
    ((∀ c ∈ cfg.clusters, c.1 ≠ key) → (∀ u ∈ cfg.users, u.1 ≠ key) →
      (∀ x ∈ cfg.contexts, x.1 ≠ key) → cfg.currentContext ≠ key →
      cfg.Clear key = cfg) ∧
    (∀ c u x, cfg.clusters = [(key, c)] → cfg.users = [(key, u)] →
      cfg.contexts = [(key, x)] → cfg.currentContext = key →
      (cfg.Clear key).clusters = [] ∧ (cfg.Clear key).users = [] ∧
      (cfg.Clear key).contexts = [] ∧ (cfg.Clear key).currentContext = "") := by
  refine ⟨?_, ?_, ?_, ?_, rfl, ?_, ?_⟩
  · exact GCloud.lookup_filter_self cfg.clusters key
  · exact GCloud.lookup_filter_self cfg.users key
  · exact GCloud.lookup_filter_self cfg.contexts key
  · intro k hk
    exact ⟨GCloud.lookup_filter_other cfg.clusters key k hk,
           GCloud.lookup_filter_other cfg.users key k hk,
           GCloud.lookup_filter_other cfg.contexts key k hk⟩
  · intro hc hu hx hcc
    obtain ⟨cl, us, cx, cur⟩ := cfg
    simp only [GCloud.Kubeconfig.Clear, GCloud.Kubeconfig.mk.injEq]
    refine ⟨?_, ?_, ?_, ?_⟩
    · exact List.filter_eq_self.mpr (fun a ha => by simpa using hc a ha)
    · exact List.filter_eq_self.mpr (fun a ha => by simpa using hu a ha)
    · exact List.filter_eq_self.mpr (fun a ha => by simpa using hx a ha)
    · exact if_neg hcc
  · intro c u x hc hu hx hcc
    simp [GCloud.Kubeconfig.Clear, hc, hu, hx, hcc]

/-- Witness for C5: the spec example — all three collections keyed `c1` with
`current-context = c1`: clearing `c1` empties everything, clearing `other`
is a no-op. -/
theorem Kubeconfig_Clear_spec_witness :
    ((({ clusters := [("c1", "cl")], users := [("c1", "us")], contexts := [("c1", "cx")],
         currentContext := "c1" } : GCloud.Kubeconfig String String String).Clear
        "c1").clusters = [] ∧
      (({ clusters := [("c1", "cl")], users := [("c1", "us")], contexts := [("c1", "cx")],
          currentContext := "c1" } : GCloud.Kubeconfig String String String).Clear
        "c1").users = [] ∧
      (({ clusters := [("c1", "cl")], users := [("c1", "us")], contexts := [("c1", "cx")],
          currentContext := "c1" } : GCloud.Kubeconfig String String String).Clear
        "c1").contexts = [] ∧
      (({ clusters := [("c1", "cl")], users := [("c1", "us")], contexts := [("c1", "cx")],
          currentContext := "c1" } : GCloud.Kubeconfig String String String).Clear
        "c1").currentContext = "") ∧
    ({ clusters := [("c1", "cl")], users := [("c1", "us")], contexts := [("c1", "cx")],
       currentContext := "c1" } : GCloud.Kubeconfig String String String).Clear "other" =
      { clusters := [("c1", "cl")], users := [("c1", "us")], contexts := [("c1", "cx")],
        currentContext := "c1" } := by
  constructor
  · exact (Kubeconfig_Clear_spec
      ({ clusters := [("c1", "cl")], users := [("c1", "us")], contexts := [("c1", "cx")],
         currentContext := "c1" } : GCloud.Kubeconfig String String String)
      "c1").2.2.2.2.2.2 "cl" "us" "cx" rfl rfl rfl rfl
  · exact (Kubeconfig_Clear_spec
      ({ clusters := [("c1", "cl")], users := [("c1", "us")], contexts := [("c1", "cx")],
         currentContext := "c1" } : GCloud.Kubeconfig String String String)
      "other").2.2.2.2.2.1 (by decide) (by decide) (by decide) (by decide)

/-- C3: `VersionVerifier.Compare` partitions two semantic versions into four
classes: equal version strings are UP_TO_DATE; same major with signed minor
distance at most 1 is UPGRADE_AVAILABLE; same major with minor distance
exactly 2 is SUPPORT_ENDING; any major difference or minor distance greater
than 2 is UNSUPPORTED. -/
theorem VersionVerifier_Compare_spec (m c : String) (mv cv : GCloud.SemVer)
    (hm : GCloud.parseSemVer m = some mv) (hc : GCloud.parseSemVer c = some cv) :
    (m = c → GCloud.VersionVerifier.Compare m c = some .UP_TO_DATE) ∧
    (m ≠ c → mv.major = cv.major → (mv.minor : Int) - (cv.minor : Int) ≤ 1 →
      GCloud.VersionVerifier.Compare m c = some .UPGRADE_AVAILABLE) ∧
    (mv.major = cv.major → (mv.minor : Int) - (cv.minor : Int) = 2 →
      GCloud.VersionVerifier.Compare m c = some .SUPPORT_ENDING) ∧
    ((mv.major ≠ cv.major ∨ (mv.minor : Int) - (cv.minor : Int) > 2) →
      GCloud.VersionVerifier.Compare m c = some .UNSUPPORTED) := by
  have hneq : mv ≠ cv → m ≠ c := by
    intro hvv heq
    rw [heq, hc] at hm
    simp only [Option.some.injEq] at hm
    exact hvv hm.symm
  refine ⟨?_, ?_, ?_, ?_⟩
  · intro h
    simp [GCloud.VersionVerifier.Compare, h]
  · intro hne hmaj hmin
    unfold GCloud.VersionVerifier.Compare
    rw [if_neg hne, hm, hc]
    simp only [GCloud.SemVer.Distance]
    rw [if_neg (by omega), if_neg (by omega)]
  · intro hmaj hmin
    have hvv : mv ≠ cv := by
      intro h
      rw [h] at hmin
      omega
    unfold GCloud.VersionVerifier.Compare
    rw [if_neg (hneq hvv), hm, hc]
    simp only [GCloud.SemVer.Distance]
    rw [if_neg (by omega), if_pos (by omega)]
  · intro hdisj
    have hvv : mv ≠ cv := by
      intro h
      rw [h] at hdisj
      rcases hdisj with h' | h'
      · exact h' rfl
      · omega
    unfold GCloud.VersionVerifier.Compare
    rw [if_neg (hneq hvv), hm, hc]
    simp only [GCloud.SemVer.Distance]
    rw [if_pos (by rcases hdisj with h' | h' <;> [left; right] <;> omega)]

/-- Witness for C3: the four spec examples `1.9.0/1.9.0`, `1.10.0/1.9.0`,
`1.11.0/1.9.0`, `2.0.0/1.9.0`. -/
theorem VersionVerifier_Compare_spec_witness :
    GCloud.VersionVerifier.Compare "1.9.0" "1.9.0" = some .UP_TO_DATE ∧
    GCloud.VersionVerifier.Compare "1.10.0" "1.9.0" = some .UPGRADE_AVAILABLE ∧
    GCloud.VersionVerifier.Compare "1.11.0" "1.9.0" = some .SUPPORT_ENDING ∧
    GCloud.VersionVerifier.Compare "2.0.0" "1.9.0" = some .UNSUPPORTED := by
  refine ⟨?_, ?_, ?_, ?_⟩
  · exact (VersionVerifier_Compare_spec "1.9.0" "1.9.0" ⟨1, 9, 0⟩ ⟨1, 9, 0⟩
      (by decide) (by decide)).1 rfl
  · exact (VersionVerifier_Compare_spec "1.10.0" "1.9.0" ⟨1, 10, 0⟩ ⟨1, 9, 0⟩
      (by decide) (by decide)).2.1 (by decide) rfl (by decide)
  · exact (VersionVerifier_Compare_spec "1.11.0" "1.9.0" ⟨1, 11, 0⟩ ⟨1, 9, 0⟩
      (by decide) (by decide)).2.2.1 rfl (by decide)
  · exact (VersionVerifier_Compare_spec "2.0.0" "1.9.0" ⟨2, 0, 0⟩ ⟨1, 9, 0⟩
      (by decide) (by decide)).2.2.2 (Or.inl (by decide))

/-- C4: `ParseTpuOptions` enforces the TPU prerequisite chain: enable_tpu
without enable_kubernetes_alpha fails naming enable-kubernetes-alpha;
enable_tpu with alpha but without enable_ip_alias fails naming
enable-ip-alias; tpu_ipv4_cidr without enable_tpu fails naming enable-tpu;
the fully satisfied combination succeeds and sets enableTpu = true. -/
theorem ParseTpuOptions_spec (options : GCloud.TpuOptions) (cluster : GCloud.TpuCluster) :
    (GCloud.truthyBool options.enable_tpu = true →
      GCloud.truthyBool options.enable_kubernetes_alpha = false →
      GCloud.ParseTpuOptions options cluster =
        .error (GCloud.PREREQUISITE_OPTION_ERROR_MSG "enable-kubernetes-alpha" "enable-tpu")) ∧
    (GCloud.truthyBool options.enable_tpu = true →
      GCloud.truthyBool options.enable_kubernetes_alpha = true →
      GCloud.truthyBool options.enable_ip_alias = false →
      GCloud.ParseTpuOptions options cluster =
        .error (GCloud.PREREQUISITE_OPTION_ERROR_MSG "enable-ip-alias" "enable-tpu")) ∧
    (GCloud.truthyBool options.enable_tpu = false →
      GCloud.truthyStr options.tpu_ipv4_cidr = true →
      GCloud.ParseTpuOptions options cluster =
        .error (GCloud.PREREQUISITE_OPTION_ERROR_MSG "enable-tpu" "tpu-ipv4-cidr")) ∧
    (options.enable_tpu = some true →
      GCloud.truthyBool options.enable_kubernetes_alpha = true →
      GCloud.truthyBool options.enable_ip_alias = true →
      GCloud.ParseTpuOptions options cluster = .ok { cluster with enableTpu := some true }) := by
  refine ⟨?_, ?_, ?_, ?_⟩
  · intro h1 h2
    simp [GCloud.ParseTpuOptions, h1, h2]
  · intro h1 h2 h3
    simp [GCloud.ParseTpuOptions, h1, h2, h3]
  · intro h1 h2
    simp [GCloud.ParseTpuOptions, h1, h2]
  · intro h1 h2 h3
    have ht : GCloud.truthyBool options.enable_tpu = true := by rw [h1]; rfl
    simp [GCloud.ParseTpuOptions, ht, h2, h3, h1]
    simp [GCloud.truthyBool]

/-- Witness for C4: the four concrete prerequisite-chain scenarios. -/
theorem ParseTpuOptions_spec_witness :
    GCloud.ParseTpuOptions { enable_tpu := some true } {} =
      .error (GCloud.PREREQUISITE_OPTION_ERROR_MSG "enable-kubernetes-alpha" "enable-tpu") ∧
    GCloud.ParseTpuOptions
        { enable_tpu := some true, enable_kubernetes_alpha := some true } {} =
      .error (GCloud.PREREQUISITE_OPTION_ERROR_MSG "enable-ip-alias" "enable-tpu") ∧
    GCloud.ParseTpuOptions { tpu_ipv4_cidr := some "10.0.0.0/20" } {} =
      .error (GCloud.PREREQUISITE_OPTION_ERROR_MSG "enable-tpu" "tpu-ipv4-cidr") ∧
    GCloud.ParseTpuOptions
        { enable_tpu := some true, enable_kubernetes_alpha := some true,
          enable_ip_alias := some true } {} =
      .ok { enableTpu := some true } := by
  refine ⟨?_, ?_, ?_, ?_⟩
  · exact (ParseTpuOptions_spec { enable_tpu := some true } {}).1 rfl rfl
  · exact (ParseTpuOptions_spec
      { enable_tpu := some true, enable_kubernetes_alpha := some true } {}).2.1 rfl rfl rfl
  · exact (ParseTpuOptions_spec { tpu_ipv4_cidr := some "10.0.0.0/20" } {}).2.2.1 rfl rfl
  · exact (ParseTpuOptions_spec
      { enable_tpu := some true, enable_kubernetes_alpha := some true,
        enable_ip_alias := some true } {}).2.2.2 rfl rfl rfl

/-- C7: the function-source size check fails with OversizedDeployment,
reporting measured and limit sizes in bytes, exactly when the measured size
strictly exceeds 512 * 2^20 bytes; 512 MiB + 1 fails and 512 MiB succeeds. -/
theorem ValidateUnpackedSourceSize_spec :
    (∀ size_b : Nat,
      (GCloud.exceptOk (GCloud._ValidateUnpackedSourceSize size_b) = false ↔
        size_b > 512 * 2 ^ 20) ∧
      GCloud._ValidateUnpackedSourceSize size_b =
        (if size_b > 512 * 2 ^ 20 then
          .error (toString size_b ++ "B", toString (512 * 2 ^ 20) ++ "B")
        else .ok ())) ∧
    GCloud._ValidateUnpackedSourceSize (512 * 2 ^ 20 + 1) =
      .error ("536870913B", "536870912B") ∧
    GCloud._ValidateUnpackedSourceSize (512 * 2 ^ 20) = .ok () := by
  refine ⟨fun size_b => ⟨?_, rfl⟩, by rfl, by rfl⟩
  simp only [GCloud._ValidateUnpackedSourceSize]
  split <;> simp_all [GCloud.exceptOk]

/-- C6: `WaitForOperation` polls until done or timeout: a source that is
not-done for the first `N` polls and done on poll `N + 1`, with
`poll_period_s = 0`, returns successfully after exactly `N + 1` fetches; a
source that never reports done fails with the "still running" timeout error
once the simulated elapsed time reaches `timeout_s`; a source whose
operation completed with a non-empty error payload fails naming that
payload. -/
theorem WaitForOperation_spec (N timeout_s p fuel : Nat) (msg : String)
    (ht : 0 < timeout_s) (hN : N < fuel) (hp : 0 < p) (hfp : timeout_s ≤ fuel * p)
    (hmsg : GCloud.truthyStr (some msg) = true) :
    GCloud.WaitForOperation (GCloud.srcDoneAfter N) timeout_s 0 fuel =
      some (N + 1, .ok GCloud.doneOperation) ∧
    (∃ k, GCloud.WaitForOperation GCloud.srcNeverDone timeout_s p fuel =
      some (k, .error .stillRunning)) ∧
    GCloud.WaitForOperation (GCloud.srcDoneWithError msg) timeout_s p fuel =
      some (1, .error (.finishedWithError msg)) := by
  refine ⟨?_, ?_, ?_⟩
  · exact GCloud.wait_srcDoneAfter N timeout_s ht fuel 0 none (by omega) (by omega)
  · obtain ⟨f, rfl⟩ : ∃ f, fuel = f + 1 := ⟨fuel - 1, by omega⟩
    rw [GCloud.WaitForOperation, GCloud.waitForOperationAux, if_pos ht]
    have hsrc : GCloud.srcNeverDone 0 = .ok GCloud.pendingOperation := rfl
    rw [hsrc]
    simp only [GCloud.isFinished_pending, Bool.false_eq_true, if_false, Nat.zero_add]
    have hmul : (f + 1) * p = f * p + p := by ring
    exact GCloud.wait_srcNeverDone timeout_s p f p 1 (by omega)
  · obtain ⟨f, rfl⟩ : ∃ f, fuel = f + 1 := ⟨fuel - 1, by omega⟩
    rw [GCloud.WaitForOperation, GCloud.waitForOperationAux, if_pos ht]
    have hsrc : GCloud.srcDoneWithError msg 0 =
        .ok { status := .DONE, statusMessage := some msg } := rfl
    rw [hsrc]
    simp [GCloud.finishWait, GCloud.IsOperationFinished, GCloud.GetOperationError, hmsg]

/-- Witness for C6 at `N = 2`, `timeout_s = 5`, `p = 1`, `fuel = 5`,
payload "deploy failed". -/
theorem WaitForOperation_spec_witness :
    GCloud.WaitForOperation (GCloud.srcDoneAfter 2) 5 0 5 =
      some (3, .ok GCloud.doneOperation) ∧
    (∃ k, GCloud.WaitForOperation GCloud.srcNeverDone 5 1 5 =
      some (k, .error .stillRunning)) ∧
    GCloud.WaitForOperation (GCloud.srcDoneWithError "deploy failed") 5 1 5 =
      some (1, .error (.finishedWithError "deploy failed")) :=
  WaitForOperation_spec 2 5 1 5 "deploy failed" (by decide) (by decide) (by decide)
    (by decide) (by decide)

/-- C9: contrary to the claim, `UpdateLabelsCommon` does not tolerate a
not-found cluster re-fetch: `clus` stays `None` and the final
`clus.labelFingerprint` raises AttributeError, so the call faults instead
of returning the sorted labels with a fingerprint; on a successful fetch it
does return the key-sorted labels with the cluster's fingerprint. -/
theorem UpdateLabelsCommon_notFound_faults :
    GCloud.UpdateLabelsCommon .notFound [("a", "b")] = .error .attributeErrorNoneType ∧
    GCloud.UpdateLabelsCommon (.ok { labelFingerprint := "fp" }) [("b", "2"), ("a", "1")] =
      .ok ([("a", "1"), ("b", "2")], "fp") := by
  constructor
  · rfl
  · rfl

/-- C8: `ConstructCreateInstanceFromArgs` infers the replication type: with
no main-instance name and no explicit replication flag the settings get
`SYNCHRONOUS`; with a main-instance name, no explicit flag and replica-type
FAILOVER the settings get `ASYNCHRONOUS` and a failover-target replica
configuration; an explicit replication flag always wins over the inferred
value. -/
theorem ConstructCreateInstanceFromArgs_replication (ext : GCloud.SqlExternals)
    (args : GCloud.SqlArgs) (original : Option GCloud.DatabaseInstance)
    (instance_ref : Option (String × String)) (release_track : GCloud.ReleaseTrack) :
    (args.main_instance_name = none → GCloud.truthyStr args.replication = false →
      ∀ inst,
        GCloud.ConstructCreateInstanceFromArgs ext args original instance_ref
          release_track = .ok inst →
        inst.settings.replicationType = some "SYNCHRONOUS") ∧
    (GCloud.truthyStr args.main_instance_name = true →
      GCloud.truthyStr args.replication = false →
      args.replica_type = some "FAILOVER" →
      ∀ inst,
        GCloud.ConstructCreateInstanceFromArgs ext args original instance_ref
          release_track = .ok inst →
        inst.settings.replicationType = some "ASYNCHRONOUS" ∧
        inst.replicaConfiguration = some { failoverTarget := true }) ∧
    (GCloud.truthyStr args.replication = true →
      ∀ inst,
        GCloud.ConstructCreateInstanceFromArgs ext args original instance_ref
          release_track = .ok inst →
        inst.settings.replicationType = args.replication) := by
  refine ⟨?_, ?_, ?_⟩
  · intro hmain hrep inst h
    unfold GCloud.ConstructCreateInstanceFromArgs at h
    cases hcs : GCloud._ConstructCreateSettingsFromArgs ext args original release_track with
    | error e =>
      rw [hcs] at h
      exact absurd h (by simp)
    | ok s =>
      rw [hcs] at h
      simp only [] at h
      have hm : GCloud.truthyStr args.main_instance_name = false := by
        rw [hmain]
        rfl
      simp only [hm, hrep, Bool.false_and, Bool.not_false, if_false, if_true,
        Bool.false_eq_true, Bool.true_eq_false] at h
      split at h <;> (simp only [Except.ok.injEq] at h; subst h; rfl)
  · intro hmain hrep hrt inst h
    unfold GCloud.ConstructCreateInstanceFromArgs at h
    cases hcs : GCloud._ConstructCreateSettingsFromArgs ext args original release_track with
    | error e =>
      rw [hcs] at h
      exact absurd h (by simp)
    | ok s =>
      rw [hcs] at h
      simp only [] at h
      have hcond : (true && decide (args.replica_type = some "FAILOVER")) = true := by
        rw [hrt]
        rfl
      simp only [hmain, hcond, hrep, Bool.not_false, if_true,
        Bool.false_eq_true, Bool.true_eq_false] at h
      split at h <;> (simp only [Except.ok.injEq] at h; subst h; exact ⟨rfl, rfl⟩)
  · intro hrep inst h
    unfold GCloud.ConstructCreateInstanceFromArgs at h
    cases hcs : GCloud._ConstructCreateSettingsFromArgs ext args original release_track with
    | error e =>
      rw [hcs] at h
      exact absurd h (by simp)
    | ok s =>
      rw [hcs] at h
      simp only [] at h
      have hs := GCloud.createSettings_rt ext args original release_track s hcs
      simp only [hrep, Bool.not_true, if_false, Bool.true_eq_false] at h
      by_cases hc : (GCloud.truthyStr args.main_instance_name &&
          decide (args.replica_type = some "FAILOVER")) = true
      · rw [if_pos hc] at h
        split at h <;> (simp only [Except.ok.injEq] at h; subst h; exact hs)
      · rw [if_neg hc] at h
        split at h <;> (simp only [Except.ok.injEq] at h; subst h; exact hs)

/-- Witness for C8: all-default args give SYNCHRONOUS; a main instance
with replica-type FAILOVER gives ASYNCHRONOUS plus failoverTarget; an
explicit `--replication` value is kept verbatim. -/
theorem ConstructCreateInstanceFromArgs_replication_witness :
    (({ settings := { replicationType := some "SYNCHRONOUS" } } :
        GCloud.DatabaseInstance).settings.replicationType = some "SYNCHRONOUS") ∧
    (({ mainInstanceName := some "the-main",
        settings := { replicationType := some "ASYNCHRONOUS" },
        replicaConfiguration := some { failoverTarget := true } } :
        GCloud.DatabaseInstance).settings.replicationType = some "ASYNCHRONOUS" ∧
      ({ mainInstanceName := some "the-main",
         settings := { replicationType := some "ASYNCHRONOUS" },
         replicaConfiguration := some { failoverTarget := true } } :
         GCloud.DatabaseInstance).replicaConfiguration =
        some { failoverTarget := true }) ∧
    (({ settings := { replicationType := some "SYNCHRONOUS" } } :
        GCloud.DatabaseInstance).settings.replicationType =
      ({ replication := some "SYNCHRONOUS" } : GCloud.SqlArgs).replication) := by
  refine ⟨?_, ?_, ?_⟩
  · exact (ConstructCreateInstanceFromArgs_replication {} {} none none .GA).1 rfl rfl
      { settings := { replicationType := some "SYNCHRONOUS" } } rfl
  · exact (ConstructCreateInstanceFromArgs_replication {}
      { main_instance_name := some "the-main", replica_type := some "FAILOVER" }
      none none .GA).2.1 rfl rfl rfl
      { mainInstanceName := some "the-main",
        settings := { replicationType := some "ASYNCHRONOUS" },
        replicaConfiguration := some { failoverTarget := true } } rfl
  · exact (ConstructCreateInstanceFromArgs_replication {}
      { replication := some "SYNCHRONOUS" } none none .GA).2.2 rfl
      { settings := { replicationType := some "SYNCHRONOUS" } } rfl

/-- C10 counterexample: with `update_nodes` populated but
`main_authorized_networks` given without `enable_main_authorized_networks`,
`UpdateClusterCommon` raises the authorized-networks validation error
instead of returning a ClusterUpdate; and with none of the ten kinds
populated plus that same networks list, it raises the validation error
instead of faulting on the undefined local. -/
theorem UpdateClusterCommon_mismatch_counterexample :
    GCloud.UpdateClusterCommon GCloud.CreateClusterAutoscalingCommonBase
      { update_nodes := some true, main_authorized_networks := ["1.2.3.4/30"] } =
      .error .mismatchAuthorizedNetworks ∧
    GCloud.UpdateClusterCommon GCloud.CreateClusterAutoscalingCommonBase
      { main_authorized_networks := ["1.2.3.4/30"] } =
      .error .mismatchAuthorizedNetworks :=
  ⟨rfl, rfl⟩

/-- C10 (amended): with none of the ten update kinds populated,
`UpdateClusterCommon` faults on the undefined local `update` — unless the
authorized-networks mismatch applies, in which case that validation error
is raised first; with at least one kind populated, no mismatch, and a
successful autoscaling hook, it returns exactly one ClusterUpdate chosen by
the fixed priority order (shown here for the two highest-priority kinds). -/
theorem UpdateClusterCommon_spec
    (hook : GCloud.UpdateClusterOptions →
      Except GCloud.UpdateError GCloud.ClusterAutoscaling)
    (options : GCloud.UpdateClusterOptions) :
    (GCloud.updateKindPopulated options = false →
      GCloud.truthyList options.main_authorized_networks = false →
      GCloud.UpdateClusterCommon hook options = .error .unboundLocal) ∧
    (GCloud.updateKindPopulated options = false →
      GCloud.truthyList options.main_authorized_networks = true →
      GCloud.UpdateClusterCommon hook options = .error .mismatchAuthorizedNetworks) ∧
    (GCloud.truthyBool options.update_nodes = true →
      (GCloud.truthyList options.main_authorized_networks &&
        !GCloud.truthyBool options.enable_main_authorized_networks) = false →
      GCloud.UpdateClusterCommon hook options =
        .ok { desiredNodeVersion :=
                if GCloud.truthyStr options.version then options.version else some "-",
              desiredNodePoolId := options.node_pool,
              desiredImageType := options.image_type }) ∧
    (GCloud.truthyBool options.update_nodes = false →
      GCloud.truthyBool options.update_main = true →
      (GCloud.truthyList options.main_authorized_networks &&
        !GCloud.truthyBool options.enable_main_authorized_networks) = false →
      GCloud.UpdateClusterCommon hook options =
        .ok { desiredMainVersion :=
                if GCloud.truthyStr options.version then options.version else some "-" }) ∧
    (GCloud.updateKindPopulated options = true →
      (GCloud.truthyList options.main_authorized_networks &&
        !GCloud.truthyBool options.enable_main_authorized_networks) = false →
      GCloud.exceptOk (hook options) = true →
      GCloud.exceptOk (GCloud.UpdateClusterCommon hook options) = true) := by
  refine ⟨?_, ?_, ?_, ?_, ?_⟩
  · intro hnone hman
    simp only [GCloud.updateKindPopulated, Bool.or_eq_false_iff] at hnone
    obtain ⟨⟨⟨⟨⟨⟨⟨⟨⟨a1, a2⟩, a3⟩, a4⟩, a5⟩, a6⟩, a7⟩, a8⟩, a9⟩, a10⟩ := hnone
    simp [GCloud.UpdateClusterCommon, a1, a2, a3, a4, a5, a6, a7, a8, a9, a10, hman]
  · intro hnone hman
    simp only [GCloud.updateKindPopulated, Bool.or_eq_false_iff] at hnone
    obtain ⟨⟨⟨⟨⟨⟨⟨⟨⟨a1, a2⟩, a3⟩, a4⟩, a5⟩, a6⟩, a7⟩, a8⟩, a9⟩, a10⟩ := hnone
    have a7' := GCloud.truthyBool_of_isSome_false _ a7
    simp [GCloud.UpdateClusterCommon, a1, a2, a3, a4, a5, a6, a7, a7', a8, a9, a10, hman]
  · intro h1 hmis
    simp [GCloud.UpdateClusterCommon, h1, hmis]
  · intro h1 h2 hmis
    simp [GCloud.UpdateClusterCommon, h1, h2, hmis]
  · intro hpop hmis hhook
    by_cases h1 : GCloud.truthyBool options.update_nodes = true
    · simp [GCloud.UpdateClusterCommon, GCloud.exceptOk, h1, hmis]
    · rw [Bool.not_eq_true] at h1
      by_cases h2 : GCloud.truthyBool options.update_main = true
      · simp [GCloud.UpdateClusterCommon, GCloud.exceptOk, h1, h2, hmis]
      · rw [Bool.not_eq_true] at h2
        by_cases h3 : GCloud.truthyStr options.monitoring_service = true
        · simp [GCloud.UpdateClusterCommon, GCloud.exceptOk, h1, h2, h3, hmis]
        · rw [Bool.not_eq_true] at h3
          by_cases h4 : options.disable_addons.isSome = true
          · simp [GCloud.UpdateClusterCommon, GCloud.exceptOk, h1, h2, h3, h4, hmis]
          · rw [Bool.not_eq_true] at h4
            by_cases h5 : options.enable_autoscaling.isSome = true
            · simp [GCloud.UpdateClusterCommon, GCloud.exceptOk, h1, h2, h3, h4, h5,
                hmis]
            · rw [Bool.not_eq_true] at h5
              by_cases h6 : GCloud.truthyList options.locations = true
              · simp [GCloud.UpdateClusterCommon, GCloud.exceptOk, h1, h2, h3, h4, h5,
                  h6, hmis]
              · rw [Bool.not_eq_true] at h6
                by_cases h7 : options.enable_main_authorized_networks.isSome = true
                · simp [GCloud.UpdateClusterCommon, GCloud.exceptOk, h1, h2, h3, h4,
                    h5, h6, h7, hmis]
                · rw [Bool.not_eq_true] at h7
                  by_cases h8 : options.enable_autoprovisioning.isSome = true
                  · cases hA : hook options with
                    | error e =>
                      rw [hA] at hhook
                      exact absurd hhook (by simp [GCloud.exceptOk])
                    | ok a =>
                      simp [GCloud.UpdateClusterCommon, GCloud.exceptOk, h1, h2, h3, h4,
                        h5, h6, h7, h8, hA, hmis]
                  · rw [Bool.not_eq_true] at h8
                    by_cases h9 : options.enable_pod_security_policy.isSome = true
                    · simp [GCloud.UpdateClusterCommon, GCloud.exceptOk, h1, h2, h3,
                        h4, h5, h6, h7, h8, h9, hmis]
                    · rw [Bool.not_eq_true] at h9
                      by_cases h10 : options.enable_binauthz.isSome = true
                      · simp [GCloud.UpdateClusterCommon, GCloud.exceptOk, h1, h2, h3,
                          h4, h5, h6, h7, h8, h9, h10, hmis]
                      · rw [Bool.not_eq_true] at h10
                        exact absurd hpop (by
                          simp [GCloud.updateKindPopulated, h1, h2, h3, h4, h5, h6, h7,
                            h8, h9, h10])

/-- Witness for C10: the all-default options fault on the undefined local;
the first two priority kinds return their payloads; a populated lower-
priority kind (locations) returns exactly one update. -/
theorem UpdateClusterCommon_spec_witness :
    GCloud.UpdateClusterCommon GCloud.CreateClusterAutoscalingCommonBase {} =
      .error .unboundLocal ∧
    GCloud.UpdateClusterCommon GCloud.CreateClusterAutoscalingCommonBase
      { main_authorized_networks := ["10.0.0.0/8"] } =
      .error .mismatchAuthorizedNetworks ∧
    GCloud.UpdateClusterCommon GCloud.CreateClusterAutoscalingCommonBase
      { update_nodes := some true, node_pool := some "pool-1" } =
      .ok { desiredNodeVersion := some "-", desiredNodePoolId := some "pool-1" } ∧
    GCloud.UpdateClusterCommon GCloud.CreateClusterAutoscalingCommonBase
      { update_main := some true, version := some "1.10.0" } =
      .ok { desiredMainVersion := some "1.10.0" } ∧
    GCloud.exceptOk (GCloud.UpdateClusterCommon (fun _ => .ok {})
      { locations := ["us-central1-a"] }) = true := by
  refine ⟨?_, ?_, ?_, ?_, ?_⟩
  · exact (UpdateClusterCommon_spec GCloud.CreateClusterAutoscalingCommonBase {}).1
      rfl rfl
  · exact (UpdateClusterCommon_spec GCloud.CreateClusterAutoscalingCommonBase
      { main_authorized_networks := ["10.0.0.0/8"] }).2.1 rfl rfl
  · exact (UpdateClusterCommon_spec GCloud.CreateClusterAutoscalingCommonBase
      { update_nodes := some true, node_pool := some "pool-1" }).2.2.1 rfl rfl
  · exact (UpdateClusterCommon_spec GCloud.CreateClusterAutoscalingCommonBase
      { update_main := some true, version := some "1.10.0" }).2.2.2.1 rfl rfl rfl
  · exact (UpdateClusterCommon_spec (fun _ => .ok {})
      { locations := ["us-central1-a"] }).2.2.2.2 rfl rfl rfl
